import Mathlib

/-!
Verification of `src/assets/code/unique-ptr-ownership.cpp`.

The program is a single-threaded C++ demo of exclusive-ownership transfer with
`std::unique_ptr`: a `Producer` constructs a `Data` into its slot `m_data`,
lends it to a `Borrower` by rvalue reference, checks occupancy, and — only if
the slot is still occupied — hands ownership to a `Consumer` by value.

We embed the program shallowly as pure Lean functions producing the list of
observable events (construction, destruction, payload reads, occupancy
checks).  Instance identity (the `this` pointer printed by the C++ log) is
modelled by a natural-number id drawn from a counter.  The unguarded
dereferences `data->datum()` inside `Borrower::borrow` and
`Consumer::consume` are undefined behaviour on a null pointer; we model them
by returning `none` when the incoming slot is empty, so `some` results mean
"no null dereference happened".
-/

/-- Observable events of the program.  `create`/`destroy` are the `Data`
constructor/destructor log lines, `borrowerReport`/`consumerReport` are the
payload reads (each tagged with the identity of the instance read),
`checkOccupied` is the producer's `m_data != nullptr` check after lending and
`checkEmpty` its `m_data == nullptr` check before returning. -/
inductive Event : Type
  | create (id : Nat) (payload : String)
  | destroy (id : Nat)
  | borrowerReport (id : Nat) (payload : String)
  | consumerReport (id : Nat) (payload : String)
  | checkOccupied (occupied : Bool)
  | checkEmpty (empty : Bool)
  deriving DecidableEq, Repr

/-- `struct Data`: holds the payload `m_datum`; the `id` field models the
observable instance identity tagging its creation and destruction events. -/
structure Data : Type where
  id : Nat
  m_datum : String
  deriving DecidableEq, Repr

/-- `Data::datum()`: read-only access to the payload. -/
def Data.datum (d : Data) : String := d.m_datum

/-- A `std::unique_ptr<Data>` ownership slot: empty (`nullptr`) or owning one
`Data`. -/
abbrev Slot := Option Data

/-- `Consumer::consume(std::unique_ptr<Data> data)`: receives ownership by
value, dereferences `data->datum()` unconditionally (hence `none` if the
argument is null: undefined behaviour), reports the payload, and destroys the
`Data` when the by-value parameter goes out of scope at return. -/
def Consumer.consume (data : Slot) : Option (List Event) :=
  match data with
  | none => none
  | some d => some [Event.consumerReport d.id d.datum, Event.destroy d.id]

/-- `struct Borrower`: its only state is the boolean disposition
`m_moocher` (default `false`). -/
structure Borrower : Type where
  m_moocher : Bool
  deriving DecidableEq, Repr

/-- A default-constructed `Borrower`: `m_moocher { false }`. -/
def Borrower.init : Borrower := ⟨false⟩

/-- `Borrower::setBadWill()`: sets `m_moocher = true`. -/
def Borrower.setBadWill (_b : Borrower) : Borrower := ⟨true⟩

/-- `Borrower::borrow(std::unique_ptr<Data>&& data)`: receives an rvalue
reference to the caller's slot (so it may move from it, mutating the caller's
slot in place).  It dereferences `data->datum()` unconditionally (`none` on a
null slot: undefined behaviour) and reports the payload.  If `m_moocher` is
set it moves the pointer into the local `data_is_mine_now`, which dies at the
end of the `if` block — still inside `borrow` — destroying the `Data` and
leaving the caller's slot empty.  Otherwise the caller's slot is untouched.
The returned `Borrower` is the (unmodified) post-call state of `this`. -/
def Borrower.borrow (b : Borrower) (data : Slot) : Option (Borrower × Slot × List Event) :=
  match data with
  | none => none
  | some d =>
    if b.m_moocher then
      some (b, none, [Event.borrowerReport d.id d.datum, Event.destroy d.id])
    else
      some (b, some d, [Event.borrowerReport d.id d.datum])

/-- `struct Producer`: owns the single slot `m_data` (its references to the
borrower and consumer are passed explicitly to `produce`). -/
structure Producer : Type where
  m_data : Slot
  deriving DecidableEq, Repr

/-- A freshly constructed `Producer`: `m_data` is an empty `unique_ptr`. -/
def Producer.init : Producer := ⟨none⟩

/-- `Producer::produce()`:
1. `m_data = std::make_unique<Data>("Hello, World!")` — constructs a fresh
   `Data` (identity `nextId`); if the slot previously owned a `Data`, the
   assignment destroys it right after the new one is constructed;
2. `m_borrower.borrow(std::move(m_data))` — lends the slot by rvalue
   reference (no move happens at the call itself);
3. logs the occupancy check `m_data != nullptr`;
4. if the slot is empty, skips the consumer; otherwise
   `m_consumer.consume(std::move(m_data))` — the move into the by-value
   parameter empties the slot before `consume` runs;
5. logs the final check `m_data == nullptr`.
Returns the updated producer and borrower, the next fresh identity and the
events emitted, or `none` if a null dereference occurred. -/
def Producer.produce (p : Producer) (b : Borrower) (nextId : Nat) :
    Option (Producer × Borrower × Nat × List Event) :=
  let d : Data := ⟨nextId, "Hello, World!"⟩
  let evs0 : List Event :=
    Event.create d.id d.m_datum ::
      (match p.m_data with
       | some old => [Event.destroy old.id]
       | none => [])
  match Borrower.borrow b (some d) with
  | none => none
  | some (b2, slot2, evsB) =>
    let evs1 : List Event := evs0 ++ evsB ++ [Event.checkOccupied slot2.isSome]
    match slot2 with
    | none =>
      let p2 : Producer := ⟨none⟩
      some (p2, b2, nextId + 1, evs1 ++ [Event.checkEmpty p2.m_data.isNone])
    | some d2 =>
      match Consumer.consume (some d2) with
      | none => none
      | some evsC =>
        let p2 : Producer := ⟨none⟩
        some (p2, b2, nextId + 1, evs1 ++ evsC ++ [Event.checkEmpty p2.m_data.isNone])

/-- `main()`: default-constructs the borrower and producer, runs
`producer.produce()`, calls `borrower.setBadWill()`, runs
`producer.produce()` again, and returns 0.  Yields the full event trace and
the exit code (or `none` if any run hit undefined behaviour). -/
def runMain : Option (List Event × Int) :=
  let borrower := Borrower.init
  let producer := Producer.init
  match producer.produce borrower 0 with
  | none => none
  | some (p1, b1, n1, evs1) =>
    let b2 := b1.setBadWill
    match p1.produce b2 n1 with
    | none => none
    | some (_, _, _, evs2) => some (evs1 ++ evs2, 0)

/-- The events emitted by a `produce` call (empty if it hit undefined
behaviour). -/
def traceOf (r : Option (Producer × Borrower × Nat × List Event)) : List Event :=
  r.elim [] (fun out => out.2.2.2)

/-- The program's full event trace. -/
def mainTrace : List Event := runMain.elim [] Prod.fst

/-- Is `e` the creation event of instance `id`? -/
def isCreate (id : Nat) : Event → Bool
  | .create i _ => i == id
  | _ => false

/-- Is `e` the destruction event of instance `id`? -/
def isDestroy (id : Nat) : Event → Bool
  | .destroy i => i == id
  | _ => false

/-- Is `e` a payload read of instance `id`? -/
def isRead (id : Nat) : Event → Bool
  | .borrowerReport i _ => i == id
  | .consumerReport i _ => i == id
  | _ => false

/-- Instance `id` has exactly one creation and one destruction in trace `t`,
the destruction strictly after the creation and after every read of its
payload. -/
def lifecycleOk (id : Nat) (t : List Event) : Bool :=
  (t.countP (isCreate id) == 1) && (t.countP (isDestroy id) == 1) &&
  (match t.findIdx? (isCreate id), t.findIdx? (isDestroy id) with
   | some c, some dd =>
     decide (c < dd) && t.enum.all (fun pr => !(isRead id pr.2) || decide (pr.1 < dd))
   | _, _ => false)

/-- The payload carried by an event, if any. -/
def eventPayload : Event → Option String
  | .create _ s => some s
  | .borrowerReport _ s => some s
  | .consumerReport _ s => some s
  | _ => none

/-- Is `e` a consumer report (the observable mark of `Consumer::consume`)? -/
def isConsumerReport : Event → Bool
  | .consumerReport _ _ => true
  | _ => false

/-- C1, as stated, is false: in the claiming run of the program (second
production run, fresh identity 1), the destruction event of the claimed
`Data` occurs inside the `produce()` call itself — the trace of that
`produce` contains `destroy 1` — so the resource does not remain alive after
`produce()` returns. -/
theorem destroy_during_claiming_produce :
    Event.destroy 1 ∈ traceOf (Producer.produce Producer.init ⟨true⟩ 1) := by
  decide

/-- C1 (amended): when the Borrower's disposition is claim, the claimed
`Data` is moved into a local variable inside `Borrower::borrow` and destroyed
when that local's scope ends, i.e. during the lending call — the destruction
event appears in the trace between the borrower's report and the producer's
occupancy check, before `produce()` returns — and no resource is left alive
in any slot afterwards (the returned producer's slot is empty and the
borrower holds nothing). -/
theorem claiming_run_destroys_resource_inside_borrow (n : Nat) :
    Producer.produce Producer.init ⟨true⟩ n =
      some (Producer.init, ⟨true⟩, n + 1,
        [Event.create n "Hello, World!", Event.borrowerReport n "Hello, World!",
         Event.destroy n, Event.checkOccupied false, Event.checkEmpty true]) := rfl

/-- C2: in every claiming `produce()` run the producer's explicit occupancy
check observes `false` (the slot is empty) and `Consumer::consume` is never
invoked — no consumer report occurs in the trace, so the empty-slot
dereference branch of `consume` is unreachable. -/
theorem claiming_run_checks_and_skips_consumer (n : Nat) :
    Event.checkOccupied false ∈ traceOf (Producer.produce Producer.init ⟨true⟩ n) ∧
    (traceOf (Producer.produce Producer.init ⟨true⟩ n)).all
      (fun e => !(isConsumerReport e)) = true := by
  refine ⟨?_, rfl⟩
  have h : traceOf (Producer.produce Producer.init ⟨true⟩ n) =
      [Event.create n "Hello, World!", Event.borrowerReport n "Hello, World!",
       Event.destroy n, Event.checkOccupied false, Event.checkEmpty true] := rfl
  rw [h]
  simp

/-- C3: for every producer state, borrower disposition and identity counter,
`produce()` returns with the producer's slot empty (`Producer.init` is the
empty-slot state), so a subsequent call constructs the fresh resource into an
empty slot. -/
theorem produce_leaves_slot_empty (p : Producer) (b : Borrower) (n : Nat) :
    ∃ evs, Producer.produce p b n = some (Producer.init, b, n + 1, evs) := by
  obtain ⟨s⟩ := p
  obtain ⟨m⟩ := b
  cases s <;> cases m <;> exact ⟨_, rfl⟩

/-- C4: in every return-untouched run the consumer reports exactly the
payload (and instance) created in that run — the `consumerReport` carries the
same identity `n` and payload as the `create` event — and the producer's
slot is empty when `produce()` returns. -/
theorem honest_run_consumer_gets_created_payload (n : Nat) :
    Producer.produce Producer.init ⟨false⟩ n =
      some (Producer.init, ⟨false⟩, n + 1,
        [Event.create n "Hello, World!", Event.borrowerReport n "Hello, World!",
         Event.checkOccupied true, Event.consumerReport n "Hello, World!",
         Event.destroy n, Event.checkEmpty true]) := rfl

/-- C5: in the program's execution trace, every created resource instance has
exactly one creation and one destruction event, the destruction strictly
after the creation and after the last read of its payload. -/
theorem lifecycle_one_create_one_destroy :
    mainTrace.all (fun e => match e with
      | Event.create i _ => lifecycleOk i mainTrace
      | _ => true) = true := by
  decide

/-- C6: when the disposition is return-untouched, `Borrower::borrow` only
reads and reports the payload: the resource is unchanged, the reference is
not moved (the caller's slot still owns the very same `Data`), and the
borrower's own state is unchanged. -/
theorem honest_borrow_leaves_slot_untouched (d : Data) :
    Borrower.borrow ⟨false⟩ (some d) =
      some (⟨false⟩, some d, [Event.borrowerReport d.id d.datum]) := rfl

/-- C7: `main` takes no input, performs exactly two production runs — the
first with the default return-untouched disposition (the consumer reports),
the second after `setBadWill` (the borrower claims and no consumer report
occurs) — and exits with code 0; the trace contains exactly two creation
events. -/
theorem main_two_runs_exit_zero :
    runMain =
      some ([Event.create 0 "Hello, World!", Event.borrowerReport 0 "Hello, World!",
             Event.checkOccupied true, Event.consumerReport 0 "Hello, World!",
             Event.destroy 0, Event.checkEmpty true,
             Event.create 1 "Hello, World!", Event.borrowerReport 1 "Hello, World!",
             Event.destroy 1, Event.checkOccupied false, Event.checkEmpty true], 0) ∧
    mainTrace.countP (fun e => match e with
      | Event.create _ _ => true
      | _ => false) = 2 :=
  ⟨rfl, rfl⟩

/-- C8: the claim disposition is one-way: the default-constructed borrower
has `m_moocher = false`, `setBadWill` sets it to `true` from any state,
`borrow` never modifies the borrower's state (so nothing resets the flag),
and once the flag is set every lending call claims the resource (empties the
caller's slot and destroys the `Data`). -/
theorem bad_will_is_one_way (b : Borrower) (d : Data) :
    Borrower.init.m_moocher = false ∧
    (b.setBadWill).m_moocher = true ∧
    (Borrower.borrow b (some d)).map Prod.fst = some b ∧
    (b.setBadWill).borrow (some d) =
      some (b.setBadWill, none,
        [Event.borrowerReport d.id d.datum, Event.destroy d.id]) := by
  obtain ⟨m⟩ := b
  cases m <;> exact ⟨rfl, rfl, rfl, rfl⟩

/-- C9: `borrow` and `consume` are never invoked on an empty slot: a `none`
result marks the null-dereference undefined behaviour inside them, and
`produce` returns `some` from every producer state and borrower disposition
(it constructs the resource right before lending and checks occupancy before
consuming), as does the whole program. -/
theorem no_null_dereference (p : Producer) (b : Borrower) (n : Nat) :
    (Producer.produce p b n).isSome = true ∧ runMain.isSome = true := by
  obtain ⟨s⟩ := p
  obtain ⟨m⟩ := b
  cases s <;> cases m <;> exact ⟨rfl, rfl⟩

/-- C10: every payload-carrying event of every `produce()` run — creation,
borrower report, consumer report — carries the hard-coded payload
"Hello, World!", for every producer state, disposition and identity counter
(there is no input that configures it). -/
theorem payload_always_hello_world (p : Producer) (b : Borrower) (n : Nat) :
    (traceOf (Producer.produce p b n)).all
      (fun e => (eventPayload e).all (fun s => s == "Hello, World!")) = true := by
  obtain ⟨s⟩ := p
  obtain ⟨m⟩ := b
  cases s <;> cases m <;> rfl
